import Mathlib

/-!
Verification of the GoogleMapsCollector core against its specification.

The Python source is shallowly embedded: Python floats are modelled as
rationals (`ℚ`), Python sets as `Finset String`, Python lists as `List`,
Python `None` as `Option.none`, and JSON values as an inductive `JVal`.
Every definition mirrors a named function or code block of the repository;
the file/line of the source is recorded in each doc comment.
-/

namespace GMaps

/-! ## Geometry: `gmaps_extractor/geo/grid.py` -/

/-- Embeds `AreaBoundary` (grid.py lines 30-37). -/
structure AreaBoundary where
  name : String
  north : ℚ
  south : ℚ
  east : ℚ
  west : ℚ
deriving DecidableEq, Repr

/-- Embeds `is_in_boundary` (grid.py lines 115-128):
`boundary.south <= lat <= boundary.north and boundary.west <= lng <= boundary.east`. -/
def is_in_boundary (lat lng : ℚ) (boundary : AreaBoundary) : Bool :=
  decide (boundary.south ≤ lat) && decide (lat ≤ boundary.north) &&
    decide (boundary.west ≤ lng) && decide (lng ≤ boundary.east)

/-- Embeds `METERS_PER_LAT_DEGREE` (_config_defaults.py line 76). -/
def METERS_PER_LAT_DEGREE : ℚ := 111320

/-- Embeds `MAX_PARALLEL_WORKERS` (_config_defaults.py line 66). -/
def MAX_PARALLEL_WORKERS : Nat := 50

/-- Embeds `meters_to_lat_degrees` (grid.py lines 45-47). -/
def meters_to_lat_degrees (meters : ℚ) : ℚ :=
  meters / METERS_PER_LAT_DEGREE

/-! ## Rate limiter: `collector_v2.py` lines 50-93

Python float arithmetic is modelled with exact rationals.  The fields
`base_delay`, `max_delay`, `backoff_factor`, `jitter` and the internal
state `current_delay`, `consecutive_errors`, `consecutive_successes`
mirror the dataclass fields with their dataclass defaults; in particular
`current_delay` defaults to `0.1` independently of `base_delay`, exactly
as in the source (`field(default=0.1, init=False)`). -/

structure RateLimiter where
  base_delay : ℚ := 1/10
  max_delay : ℚ := 30
  backoff_factor : ℚ := 2
  jitter : ℚ := 3/10
  current_delay : ℚ := 1/10
  consecutive_errors : Nat := 0
  consecutive_successes : Nat := 0
deriving DecidableEq, Repr

namespace RateLimiter

/-- Embeds `RateLimiter.record_success` (collector_v2.py lines 65-72).
The `response_time` argument is unused by the source body and omitted. -/
def record_success (rl : RateLimiter) : RateLimiter :=
  let rl := { rl with
    consecutive_successes := rl.consecutive_successes + 1
    consecutive_errors := 0 }
  if 5 ≤ rl.consecutive_successes then
    { rl with
      current_delay := max rl.base_delay (rl.current_delay * (9/10))
      consecutive_successes := 0 }
  else
    rl

/-- Embeds `RateLimiter.record_error` (collector_v2.py lines 74-80). -/
def record_error (rl : RateLimiter) (is_rate_limit : Bool) : RateLimiter :=
  let multiplier := if is_rate_limit then rl.backoff_factor * 2 else rl.backoff_factor
  { rl with
    consecutive_errors := rl.consecutive_errors + 1
    consecutive_successes := 0
    current_delay := min rl.max_delay (rl.current_delay * multiplier) }

/-- Embeds `RateLimiter.get_backoff_delay` (collector_v2.py lines 90-93). -/
def get_backoff_delay (rl : RateLimiter) (attempt : Nat) : ℚ :=
  min (rl.base_delay * rl.backoff_factor ^ attempt) rl.max_delay

end RateLimiter

/-! ## Business records

A business record arriving from `execute_search` is a JSON object; the
collector only inspects the keys `place_id`, `hex_id`, `latitude`,
`longitude` and writes the key `found_in` (collector_v2.py lines 229-231,
623-627).  The embedding keeps exactly those fields; all other payload is
irrelevant to the claims and represented by `payload`. -/

structure Business where
  place_id : Option String := none
  hex_id : Option String := none
  latitude : Option ℚ := none
  longitude : Option ℚ := none
  found_in : Option String := none
  payload : String := ""
deriving DecidableEq, Repr

/-- Python truthiness of an optional string (`if place_id:` is false for
`None` and for the empty string). -/
def strTruthy : Option String → Bool
  | none => false
  | some s => !s.isEmpty

/-- Python truthiness of an optional float (`if lat:` is false for `None`
and for `0.0`). -/
def qTruthy : Option ℚ → Bool
  | none => false
  | some q => decide (q ≠ 0)

/-! ## JSON values for the checkpoint file

`CollectionState.save` writes a JSON object with `json.dump` and
`CollectionState.load` reads it back with `json.load`
(collector_v2.py lines 125-168).  `JVal` models the JSON values that can
appear in that file. -/

inductive JVal where
  | null : JVal
  | bool (b : Bool) : JVal
  | num (q : ℚ) : JVal
  | str (s : String) : JVal
  | arr (xs : List JVal) : JVal
  | obj (fields : List (String × JVal)) : JVal

namespace JVal

/-- Looks a key up in a JSON object field list (Python `dict` access;
keys written by `json.dump` are unique, the first binding wins). -/
def jget (fields : List (String × JVal)) (k : String) : Option JVal :=
  (fields.find? (fun p => p.1 == k)).map (fun p => p.2)

/-- Reads a JSON value as a string. -/
def asStr : JVal → Option String
  | str s => some s
  | _ => none

/-- Reads a JSON value as a string list, as `set(data.get(k, []))` and
the list fields of the checkpoint do.  In the typed model a value that is
not an array of strings is treated as a schema failure. -/
def asStrList : JVal → Option (List String)
  | arr xs => xs.mapM asStr
  | _ => none

end JVal

/-! ## Collection state: `collector_v2.py` lines 100-168 -/

/-- Embeds the `CollectionState` dataclass (collector_v2.py lines 100-123).
Python `set` fields are modelled as `Finset String`; timestamps are opaque
strings supplied by the caller instead of `datetime.now()`. -/
structure CollectionState where
  area_name : String
  category : String
  buffer_km : ℚ := 5
  use_subdivision : Bool := false
  completed_cells : List String := []
  failed_cells : List String := []
  businesses_count : Nat := 0
  collected_place_ids : Finset String := ∅
  collected_hex_ids : Finset String := ∅
  enriched_place_ids : Finset String := ∅
  started_at : String := ""
  last_checkpoint : String := ""
deriving DecidableEq

namespace CollectionState

/-- Embeds `CollectionState.save` (collector_v2.py lines 125-143).
`now` stands for `datetime.now().isoformat()`.  `list(set)` enumerates a
Python set in an unspecified order, so the serialization order of each
set-valued field is an explicit argument (`place_list`, `hex_list`,
`enriched_list`); theorems quantify over all enumerations.  Returns the
updated in-memory state together with the JSON document written to the
checkpoint file. -/
def save (st : CollectionState) (now : String)
    (place_list hex_list enriched_list : List String) :
    CollectionState × JVal :=
  let st := { st with last_checkpoint := now }
  (st, JVal.obj [
    ("area_name", JVal.str st.area_name),
    ("category", JVal.str st.category),
    ("buffer_km", JVal.num st.buffer_km),
    ("use_subdivision", JVal.bool st.use_subdivision),
    ("completed_cells", JVal.arr (st.completed_cells.map JVal.str)),
    ("failed_cells", JVal.arr (st.failed_cells.map JVal.str)),
    ("businesses_count", JVal.num st.businesses_count),
    ("collected_place_ids", JVal.arr (place_list.map JVal.str)),
    ("collected_hex_ids", JVal.arr (hex_list.map JVal.str)),
    ("enriched_place_ids", JVal.arr (enriched_list.map JVal.str)),
    ("started_at", JVal.str st.started_at),
    ("last_checkpoint", JVal.str st.last_checkpoint)])

/-- Embeds `CollectionState.load` (collector_v2.py lines 145-168).

The argument models the outcome of looking at the checkpoint path:
`none` is a missing file (`os.path.exists` false), `some none` is a file
whose contents make `json.load` raise (truncated/corrupt), and
`some (some j)` is a successfully parsed JSON document `j`.  The whole
body runs under `try/except Exception: return None`, so every failure
(non-object document, missing required key, field of the wrong shape)
yields `none`.  In the typed model a field value of an unexpected JSON
shape is treated as such a failure.  `now` stands for the
`datetime.now().isoformat()` dataclass defaults.  As in the source,
`last_checkpoint` is not read back from the file. -/
def load (file : Option (Option JVal)) (now : String) : Option CollectionState :=
  match file with
  | none => none
  | some none => none
  | some (some (JVal.obj fields)) =>
    match JVal.jget fields "area_name", JVal.jget fields "category" with
    | some (JVal.str an), some (JVal.str cat) =>
      let buffer_km := match JVal.jget fields "buffer_km" with
        | none => some (5 : ℚ)
        | some (JVal.num q) => some q
        | some _ => none
      let use_subdivision := match JVal.jget fields "use_subdivision" with
        | none => some false
        | some (JVal.bool b) => some b
        | some _ => none
      let completed := match JVal.jget fields "completed_cells" with
        | none => some ([] : List String)
        | some v => v.asStrList
      let failed := match JVal.jget fields "failed_cells" with
        | none => some ([] : List String)
        | some v => v.asStrList
      let count := match JVal.jget fields "businesses_count" with
        | none => some (0 : Nat)
        | some (JVal.num q) => if q.den = 1 ∧ 0 ≤ q.num then some q.num.toNat else none
        | some _ => none
      let place_ids := match JVal.jget fields "collected_place_ids" with
        | none => some ([] : List String)
        | some v => v.asStrList
      let hex_ids := match JVal.jget fields "collected_hex_ids" with
        | none => some ([] : List String)
        | some v => v.asStrList
      let enriched_ids := match JVal.jget fields "enriched_place_ids" with
        | none => some ([] : List String)
        | some v => v.asStrList
      let started := match JVal.jget fields "started_at" with
        | none => some now
        | some (JVal.str s) => some s
        | some _ => none
      match buffer_km, use_subdivision, completed, failed, count,
            place_ids, hex_ids, enriched_ids, started with
      | some bk, some sub, some comp, some fl, some cnt,
        some pl, some hl, some el, some sa =>
        some { area_name := an, category := cat, buffer_km := bk,
               use_subdivision := sub, completed_cells := comp,
               failed_cells := fl, businesses_count := cnt,
               collected_place_ids := pl.toFinset,
               collected_hex_ids := hl.toFinset,
               enriched_place_ids := el.toFinset,
               started_at := sa, last_checkpoint := now }
      | _, _, _, _, _, _, _, _, _ => none
    | _, _ => none
  | some (some _) => none

end CollectionState

/-! ## Grid generation: `gmaps_extractor/geo/grid.py` lines 21-112

`meters_to_lng_degrees` divides by `METERS_PER_LAT_DEGREE * cos(radians
latitude))`; the cosine is transcendental, so the per-row longitude step
is abstracted as a parameter `lngStepAt : ℚ → ℚ` standing for
`meters_to_lng_degrees(cell_size_meters, latitude)`.  Every theorem below
holds for an arbitrary such function, hence in particular for the real
cosine-corrected step.  The two `while` loops are embedded with explicit
fuel; `generate_grid` supplies enough fuel for the loops to run to their
exit condition. -/

/-- Embeds `GridCell` (grid.py lines 21-27). -/
structure GridCell where
  cell_id : Nat
  center_lat : ℚ
  center_lng : ℚ
  radius_meters : Nat
deriving DecidableEq, Repr

/-- Embeds Python `round(x, 6)` (grid.py lines 102-103).  `Int.round`
rounds half-ties up where Python rounds them to even; ties at exactly
`5e-7` do not occur in any input considered here. -/
def roundTo6 (q : ℚ) : ℚ :=
  (round (q * 1000000) : ℤ) / 1000000

/-- Embeds the inner `while current_lng <= boundary.east` loop of
`generate_grid` (grid.py lines 99-108): emits the column center
longitudes of one row. -/
def gridRowLngs (east lng_step : ℚ) : ℚ → Nat → List ℚ
  | _, 0 => []
  | current_lng, fuel + 1 =>
    if current_lng ≤ east then
      current_lng :: gridRowLngs east lng_step (current_lng + lng_step) fuel
    else
      []

/-- Embeds the outer `while current_lat <= boundary.north` loop of
`generate_grid` (grid.py lines 95-110): emits the row center latitudes. -/
def gridRowLats (north lat_step : ℚ) : ℚ → Nat → List ℚ
  | _, 0 => []
  | current_lat, fuel + 1 =>
    if current_lat ≤ north then
      current_lat :: gridRowLats north lat_step (current_lat + lat_step) fuel
    else
      []

/-- Fuel sufficient for a loop stepping by `step` from `lo` to `hi`:
one more iteration than the length of the interval divided by the step. -/
def loopFuel (lo hi step : ℚ) : Nat :=
  ((hi - lo) / step).ceil.toNat + 1

/-- Embeds `generate_grid` (grid.py lines 75-112) for an explicit cell
size, with the per-row longitude step given by `lngStepAt`.  Cells are
produced row-major with ascending sequential identifiers, centers rounded
to six decimals, and `radius_meters = cell_size_meters / 2` (Python `//`). -/
def generate_grid (lngStepAt : ℚ → ℚ) (boundary : AreaBoundary)
    (cell_size_meters : Nat) : List GridCell :=
  let lat_step := meters_to_lat_degrees cell_size_meters
  let lats := gridRowLats boundary.north lat_step
    (boundary.south + lat_step / 2)
    (loopFuel (boundary.south + lat_step / 2) boundary.north lat_step)
  let rows := lats.map (fun current_lat =>
    let lng_step := lngStepAt current_lat
    (gridRowLngs boundary.east lng_step
      (boundary.west + lng_step / 2)
      (loopFuel (boundary.west + lng_step / 2) boundary.east lng_step)).map
      (fun current_lng =>
        (roundTo6 current_lat, roundTo6 current_lng)))
  (rows.flatten.enum.map (fun p =>
    { cell_id := p.1, center_lat := p.2.1, center_lng := p.2.2,
      radius_meters := cell_size_meters / 2 }))

/-! ## Cell querying: `collector_v2.py` lines 175-252 -/

/-- Embeds `TaggedCell` (collector_v2.py lines 175-181). -/
structure TaggedCell where
  cell_id : String
  center_lat : ℚ
  center_lng : ℚ
  source_area : String
deriving DecidableEq, Repr

/-- One page position of the external search backend, as seen by the
retry loop of `query_cell_with_retry`: the outcomes of the successive
attempts at that offset (`none` = `execute_search` raised, `some recs` =
it returned `recs`). -/
def PageAttempts : Type := List (Option (List Business))

/-- Embeds the `for attempt in range(max_retries)` loop of
`query_cell_with_retry` (collector_v2.py lines 207-242): the first of at
most `max_retries` attempts that does not raise wins; if every attempt
raises, the page fails. -/
def firstSuccess (max_retries : Nat) (attempts : PageAttempts) :
    Option (List Business) :=
  (attempts.take max_retries).findSome? id

/-- Result triple of `query_cell_with_retry`
(collector_v2.py line 196): `(cell_id, businesses, success)`. -/
structure QueryResult where
  cell_id : String
  businesses : List Business
  success : Bool
deriving DecidableEq, Repr

/-- Embeds `biz['found_in'] = cell.source_area`
(collector_v2.py lines 229-231). -/
def tagBusiness (cell : TaggedCell) (biz : Business) : Business :=
  { biz with found_in := some cell.source_area }

/-- Embeds the outer `while True` pagination loop of
`query_cell_with_retry` (collector_v2.py lines 200-252), recursing over
the list of successive page positions the backend would serve.  An empty
page returns the accumulated results with success; a page on which every
attempt failed returns the accumulated partial results with failure; a
short page (fewer than `results_per_page` records) ends pagination after
contributing its records; a full page contributes and continues.
Exhausting the page list stands for the backend serving no further data,
identical to an empty page. -/
def queryCellGo (cell : TaggedCell) (results_per_page max_retries : Nat) :
    List PageAttempts → List Business → QueryResult
  | [], all_results => ⟨cell.cell_id, all_results, true⟩
  | page :: rest, all_results =>
    match firstSuccess max_retries page with
    | none => ⟨cell.cell_id, all_results, false⟩
    | some businesses =>
      if businesses.length = 0 then
        ⟨cell.cell_id, all_results, true⟩
      else
        let all_results2 := all_results ++ businesses.map (tagBusiness cell)
        if businesses.length < results_per_page then
          ⟨cell.cell_id, all_results2, true⟩
        else
          queryCellGo cell results_per_page max_retries rest all_results2

/-- Embeds `query_cell_with_retry` (collector_v2.py lines 188-252),
starting the pagination loop with `all_results = []`. -/
def query_cell_with_retry (cell : TaggedCell)
    (results_per_page max_retries : Nat) (pages : List PageAttempts) :
    QueryResult :=
  queryCellGo cell results_per_page max_retries pages []

/-- A page is consumed and pagination continues exactly when some attempt
within the retry ceiling succeeded with a nonempty page of at least
`results_per_page` records. -/
def fullPage (results_per_page max_retries : Nat) (page : PageAttempts) : Bool :=
  match firstSuccess max_retries page with
  | some recs => !(recs.length == 0) && !(decide (recs.length < results_per_page))
  | none => false

/-- The records a consumed page contributes to the accumulated results,
tagged with the cell's source area. -/
def pageRecords (cell : TaggedCell) (max_retries : Nat)
    (page : PageAttempts) : List Business :=
  ((firstSuccess max_retries page).getD []).map (tagBusiness cell)

/-- Default `max_retries` of `query_cell_with_retry`
(collector_v2.py line 195), used by the parallel first pass
(lines 591-603, which pass no `max_retries`). -/
def firstPassMaxRetries : Nat := 3

/-- The `max_retries=5` the sequential retry pass passes to
`query_cell_with_retry` (collector_v2.py line 706). -/
def retryPassMaxRetries : Nat := 5

/-! ## Record processing in the scheduler: `collector_v2.py` lines 575-736 -/

/-- The mutable run-local aggregates of `collect_businesses_v2`: the
shared `CollectionState`, the in-memory `all_businesses` list, the
append-only JSONL stream, the CSV row sink, and the
`total_new`/`total_duplicates`/`total_filtered` counters
(collector_v2.py lines 575-578, 653-672). -/
structure RunState where
  state : CollectionState
  all_businesses : List Business := []
  jsonl : List Business := []
  csv_rows : List Business := []
  total_new : Nat := 0
  total_duplicates : Nat := 0
  total_filtered : Nat := 0
deriving DecidableEq

/-- Embeds the per-record body of the parallel pass's `for biz in
businesses` loop (collector_v2.py lines 623-668): boundary filter with
`lat is not None and lng is not None`, deduplication against
`collected_place_ids` / `collected_hex_ids` (first seen wins, duplicates
counted), then insertion of both identifiers, append to `all_businesses`,
JSONL write, and CSV write when `output_csv` is truthy (`write_csv`). -/
def processBusinessMain (filter_boundary : AreaBoundary) (write_csv : Bool)
    (rs : RunState) (biz : Business) : RunState :=
  let filtered_out :=
    match biz.latitude, biz.longitude with
    | some lat, some lng => !is_in_boundary lat lng filter_boundary
    | _, _ => false
  if filtered_out then
    { rs with total_filtered := rs.total_filtered + 1 }
  else if strTruthy biz.place_id ∧
      biz.place_id.getD "" ∈ rs.state.collected_place_ids then
    { rs with total_duplicates := rs.total_duplicates + 1 }
  else if strTruthy biz.hex_id ∧
      biz.hex_id.getD "" ∈ rs.state.collected_hex_ids then
    { rs with total_duplicates := rs.total_duplicates + 1 }
  else
    let st := rs.state
    let st := if strTruthy biz.place_id then
      { st with collected_place_ids :=
          insert (biz.place_id.getD "") st.collected_place_ids }
    else st
    let st := if strTruthy biz.hex_id then
      { st with collected_hex_ids :=
          insert (biz.hex_id.getD "") st.collected_hex_ids }
    else st
    { rs with
      state := st
      all_businesses := rs.all_businesses ++ [biz]
      total_new := rs.total_new + 1
      jsonl := rs.jsonl ++ [biz]
      csv_rows := if write_csv then rs.csv_rows ++ [biz] else rs.csv_rows }

/-- Embeds the per-cell-result body of the parallel pass's
`for future in as_completed` loop (collector_v2.py lines 605-690): the
cell identifier is appended to `completed_cells` on success and to
`failed_cells` on failure, every returned record (partial results
included) is processed by the filter/dedup path, and
`state.businesses_count` is set to `len(all_businesses)`. -/
def processCellMain (filter_boundary : AreaBoundary) (write_csv : Bool)
    (rs : RunState) (res : QueryResult) : RunState :=
  let st := rs.state
  let st := if res.success then
    { st with completed_cells := st.completed_cells ++ [res.cell_id] }
  else
    { st with failed_cells := st.failed_cells ++ [res.cell_id] }
  let rs := res.businesses.foldl (processBusinessMain filter_boundary write_csv)
    { rs with state := st }
  { rs with state := { rs.state with
      businesses_count := rs.all_businesses.length } }

/-- Embeds the per-record body of the sequential retry pass's `for biz in
businesses` loop (collector_v2.py lines 714-733): the boundary filter
uses Python truthiness `if lat and lng and not is_in_boundary(...)` (so a
coordinate equal to `0.0` disables the filter), duplicates and filtered
records are skipped without being counted, accepted records update the
identifier sets, `all_businesses` and the JSONL stream; no CSV row is
written and no counter is touched. -/
def processBusinessRetry (filter_boundary : AreaBoundary)
    (rs : RunState) (biz : Business) : RunState :=
  if qTruthy biz.latitude ∧ qTruthy biz.longitude ∧
      !is_in_boundary (biz.latitude.getD 0) (biz.longitude.getD 0)
        filter_boundary then
    rs
  else if strTruthy biz.place_id ∧
      biz.place_id.getD "" ∈ rs.state.collected_place_ids then
    rs
  else if strTruthy biz.hex_id ∧
      biz.hex_id.getD "" ∈ rs.state.collected_hex_ids then
    rs
  else
    let st := rs.state
    let st := if strTruthy biz.place_id then
      { st with collected_place_ids :=
          insert (biz.place_id.getD "") st.collected_place_ids }
    else st
    let st := if strTruthy biz.hex_id then
      { st with collected_hex_ids :=
          insert (biz.hex_id.getD "") st.collected_hex_ids }
    else st
    { rs with
      state := st
      all_businesses := rs.all_businesses ++ [biz]
      jsonl := rs.jsonl ++ [biz] }

/-- Embeds the sequential retry pass (collector_v2.py lines 697-736):
each cell of the local `failed_cells` list is re-queried in order with
`max_retries = 5`; on success the cell identifier is removed from
`state.failed_cells` (guarded, first occurrence) and appended to
`state.completed_cells`, and the returned records are processed by the
retry path; on failure the state is left unchanged.  `backend` gives the
pages the backend would serve to each cell during this pass. -/
def retryPass (filter_boundary : AreaBoundary)
    (backend : TaggedCell → List PageAttempts) (results_per_page : Nat)
    (rs : RunState) (failed_cells : List TaggedCell) : RunState :=
  failed_cells.foldl (fun rs cell =>
    let res := query_cell_with_retry cell results_per_page
      retryPassMaxRetries (backend cell)
    if res.success then
      let st := rs.state
      let st := { st with
        failed_cells := st.failed_cells.erase cell.cell_id
        completed_cells := st.completed_cells ++ [cell.cell_id] }
      res.businesses.foldl (processBusinessRetry filter_boundary)
        { rs with state := st }
    else
      rs) rs

/-- Replaces the cell-tracking lists of a run's state, leaving every
other field alone (used to state that record processing is independent of
the completed/failed bookkeeping). -/
def withCells (rs : RunState) (cc fc : List String) : RunState :=
  { rs with state := { rs.state with completed_cells := cc, failed_cells := fc } }

/-! ## Worker counts -/

/-- Embeds `workers = min(parallel_workers, len(pending_cells) or 1)`
(collector_v2.py line 580); `or 1` replaces a zero pending count by 1. -/
def workersV2 (parallel_workers pending_count : Nat) : Nat :=
  min parallel_workers (if pending_count = 0 then 1 else pending_count)

/-- Embeds `parallel_workers = max(1, min(parallel_workers,
MAX_PARALLEL_WORKERS, len(cells)))` (collector.py line 264). -/
def workersV1 (parallel_workers cell_count : Nat) : Nat :=
  max 1 (min parallel_workers (min MAX_PARALLEL_WORKERS cell_count))

/-! ## Enrichment detail merge: `collector_v2.py` lines 275-291

A business record is a Python dict; for the merge claim the record is
modelled as an association list from keys to optional values, where a
missing key and a key bound to `None` are distinct
(`key not in enriched` versus `enriched[key] is None`). -/

/-- Looks up a key in a record dict; `none` means the key is absent,
`some none` means the key is bound to `None`. -/
def dictGet (record : List (String × Option String)) (k : String) :
    Option (Option String) :=
  (record.find? (fun p => p.1 == k)).map (fun p => p.2)

/-- Sets a key in a record dict, replacing an existing binding in place
or appending a new one (Python `enriched[key] = value`). -/
def dictSet (record : List (String × Option String)) (k : String)
    (v : Option String) : List (String × Option String) :=
  if (record.find? (fun p => p.1 == k)).isSome then
    record.map (fun p => if p.1 == k then (p.1, v) else p)
  else
    record ++ [(k, v)]

/-- Embeds the detail-merge loop of `enrich_single_business`
(collector_v2.py lines 286-288, identical to enrichment.py lines 247-251):
`for key, value in details.items(): if value is not None and (key not in
enriched or enriched[key] is None): enriched[key] = value`. -/
def mergeDetails (enriched details : List (String × Option String)) :
    List (String × Option String) :=
  details.foldl (fun acc kv =>
    if kv.2 ≠ none ∧ (dictGet acc kv.1 = none ∨ dictGet acc kv.1 = some none) then
      dictSet acc kv.1 kv.2
    else
      acc) enriched

/-- Footprint of a cell as the specification defines it for the grid
coverage property: the center plus or minus half the cell size converted
to degrees, with the per-row longitude correction taken at the cell's
own latitude. -/
def inFootprint (lngStepAt : ℚ → ℚ) (cell_size_meters : Nat)
    (c : GridCell) (lat lng : ℚ) : Prop :=
  |lat - c.center_lat| ≤ meters_to_lat_degrees cell_size_meters / 2 ∧
    |lng - c.center_lng| ≤ lngStepAt c.center_lat / 2

/-! ## Concrete sample data used to instantiate theorems -/

/-- A small concrete collection state (two collected primary identifiers). -/
def sampleState : CollectionState :=
  { area_name := "a", category := "c", collected_place_ids := {"p1", "p2"} }

/-- A small concrete filter boundary: latitudes 0..10, longitudes 0..10. -/
def sampleBoundary : AreaBoundary :=
  { name := "b", north := 10, south := 0, east := 10, west := 0 }

/-- A run whose collection state is `sampleState` and all sinks empty. -/
def sampleRun : RunState :=
  { state := sampleState }

/-- A run state in which the secondary identifier `H` has been seen but
no primary identifier has. -/
def dupHexState : RunState :=
  { state := { area_name := "a", category := "c", collected_hex_ids := {"H"} } }

/-- A record with the unseen primary identifier `P` and the seen
secondary identifier `H`, without coordinates. -/
def dupHexBiz : Business :=
  { place_id := some "P", hex_id := some "H" }

/-- A record carrying no identifiers, with coordinates outside
`sampleBoundary`. -/
def noIdBiz : Business :=
  { latitude := some 20, longitude := some 20 }

/-- A record at latitude exactly `0.0` and a longitude outside
`sampleBoundary`: the parallel pass's `is not None` check filters it, the
retry pass's truthiness check does not. -/
def zeroLatBiz : Business :=
  { place_id := some "Z", latitude := some 0, longitude := some 20 }

/-- A run state with one failed cell identifier `c0`. -/
def failedRun : RunState :=
  { state := { area_name := "a", category := "c", failed_cells := ["c0"] } }

/-- A boundary 0.3 degrees of latitude tall: shorter than half the
0.75-degree latitude step of an 83490 m cell. -/
def smallBoundary : AreaBoundary :=
  { name := "g", north := 3/10, south := 0, east := 1, west := 0 }

/-- A unit-square boundary (1 degree by 1 degree at the equator). -/
def unitBoundary : AreaBoundary :=
  { name := "u", north := 1, south := 0, east := 1, west := 0 }

/-! ## Helper lemmas about record dicts -/

/-- Unfolds one step of the detail-merge fold. -/
theorem mergeDetails_cons (enriched : List (String × Option String))
    (kv : String × Option String) (rest : List (String × Option String)) :
    mergeDetails enriched (kv :: rest) =
      mergeDetails
        (if kv.2 ≠ none ∧ (dictGet enriched kv.1 = none ∨ dictGet enriched kv.1 = some none)
          then dictSet enriched kv.1 kv.2 else enriched) rest := rfl

/-- Setting a key makes it readable back. -/
theorem dictGet_dictSet_self (record : List (String × Option String))
    (k : String) (v : Option String) :
    dictGet (dictSet record k v) k = some v := by
  unfold dictSet
  by_cases h : (record.find? (fun p => p.1 == k)).isSome
  · rw [if_pos h]
    unfold dictGet
    rw [List.find?_map]
    have hpred : ((fun p : String × Option String => p.1 == k) ∘
        (fun p : String × Option String => if p.1 == k then (p.1, v) else p)) =
        (fun p : String × Option String => p.1 == k) := by
      funext p
      by_cases hp : p.1 = k <;> simp [hp]
    rw [hpred]
    obtain ⟨e, he⟩ := Option.isSome_iff_exists.mp h
    rw [he]
    have hek : e.1 = k := by
      have := List.find?_some he
      simpa using this
    simp [hek]
  · rw [if_neg h]
    unfold dictGet
    rw [List.find?_append]
    rw [Option.not_isSome_iff_eq_none] at h
    simp [h]

/-- Setting one key leaves every other key unchanged. -/
theorem dictGet_dictSet_ne (record : List (String × Option String))
    (k k2 : String) (v : Option String) (hne : k2 ≠ k) :
    dictGet (dictSet record k v) k2 = dictGet record k2 := by
  unfold dictSet
  by_cases h : (record.find? (fun p => p.1 == k)).isSome
  · rw [if_pos h]
    unfold dictGet
    rw [List.find?_map]
    have hpred : ((fun p : String × Option String => p.1 == k2) ∘
        (fun p : String × Option String => if p.1 == k then (p.1, v) else p)) =
        (fun p : String × Option String => p.1 == k2) := by
      funext p
      by_cases hp : p.1 = k <;> simp [hp, hne.symm]
    rw [hpred]
    cases hfind : record.find? (fun p => p.1 == k2) with
    | none => simp
    | some e =>
      have hek : e.1 = k2 := by
        have := List.find?_some hfind
        simpa using this
      have hek2 : e.1 ≠ k := by rw [hek]; exact hne
      simp [hek2]
  · rw [if_neg h]
    unfold dictGet
    rw [List.find?_append]
    cases hfind : record.find? (fun p => p.1 == k2) with
    | none =>
      simp only [hfind, Option.none_or]
      have hkk0 : ¬ k = k2 := fun hkk => hne hkk.symm
      have hkk2 : (k == k2) = false := by simp [hkk0]
      simp [List.find?, hkk2]
    | some e => simp [hfind]

/-- One step of the detail-merge fold never overwrites a populated key. -/
theorem mergeStep_preserves_populated (acc : List (String × Option String))
    (kv : String × Option String) (k : String) (v : String)
    (h : dictGet acc k = some (some v)) :
    dictGet (if kv.2 ≠ none ∧ (dictGet acc kv.1 = none ∨ dictGet acc kv.1 = some none)
      then dictSet acc kv.1 kv.2 else acc) k = some (some v) := by
  by_cases hc : kv.2 ≠ none ∧ (dictGet acc kv.1 = none ∨ dictGet acc kv.1 = some none)
  · rw [if_pos hc]
    by_cases hk : kv.1 = k
    · subst hk
      rcases hc.2 with h2 | h2 <;> rw [h] at h2 <;> simp at h2
    · rw [dictGet_dictSet_ne _ _ _ _ (fun hkk => hk hkk.symm)]
      exact h
  · rw [if_neg hc]
    exact h

/-- The detail merge never overwrites a populated key
(generalized over the fold accumulator). -/
theorem mergeDetails_preserves_populated
    (details enriched : List (String × Option String)) (k : String) (v : String)
    (h : dictGet enriched k = some (some v)) :
    dictGet (mergeDetails enriched details) k = some (some v) := by
  induction details generalizing enriched with
  | nil => simpa [mergeDetails] using h
  | cons kv rest ih =>
    rw [mergeDetails_cons]
    exact ih _ (mergeStep_preserves_populated enriched kv k v h)

/-- If the detail merge changed the value at a key, the key was missing
or null before, and afterwards holds a non-null value. -/
theorem mergeDetails_change_characterized
    (details enriched : List (String × Option String)) (k : String)
    (hch : dictGet (mergeDetails enriched details) k ≠ dictGet enriched k) :
    (dictGet enriched k = none ∨ dictGet enriched k = some none) ∧
      ∃ v, dictGet (mergeDetails enriched details) k = some (some v) := by
  induction details generalizing enriched with
  | nil => simp [mergeDetails] at hch
  | cons kv rest ih =>
    rw [mergeDetails_cons] at hch ⊢
    set acc2 := if kv.2 ≠ none ∧ (dictGet enriched kv.1 = none ∨ dictGet enriched kv.1 = some none)
      then dictSet enriched kv.1 kv.2 else enriched with hacc2
    by_cases hstep : dictGet acc2 k = dictGet enriched k
    · have hch2 : dictGet (mergeDetails acc2 rest) k ≠ dictGet acc2 k := by
        rw [hstep]
        exact hch
      have hres := ih acc2 hch2
      rw [hstep] at hres
      exact hres
    · -- the step itself changed key k, so the condition held with kv.1 = k
      by_cases hc : kv.2 ≠ none ∧ (dictGet enriched kv.1 = none ∨ dictGet enriched kv.1 = some none)
      · rw [hacc2, if_pos hc] at hstep
        by_cases hk : kv.1 = k
        · subst hk
          obtain ⟨w, hw⟩ := Option.ne_none_iff_exists.mp hc.1
          refine ⟨hc.2, ?_⟩
          have hset : dictGet acc2 kv.1 = some kv.2 := by
            rw [hacc2, if_pos hc]
            exact dictGet_dictSet_self enriched kv.1 kv.2
          by_cases hrest : dictGet (mergeDetails acc2 rest) kv.1 = dictGet acc2 kv.1
          · refine ⟨w, ?_⟩
            rw [hrest, hset, ← hw]
          · exact (ih acc2 hrest).2
        · exfalso
          exact hstep (dictGet_dictSet_ne enriched kv.1 k kv.2 (fun hkk => hk hkk.symm))
      · exfalso
        rw [hacc2, if_neg hc] at hstep
        exact hstep rfl

/-! ## C8 -/

/-- C8: Enrichment merge safety.  For every record and every detail-fetch
result, a key's value is changed by the detail merge only when the record's
current value for that key was missing or null and the merged value is
non-null; every field already populated in the record before enrichment is
unchanged after the merge. -/
theorem enrichment_merge_safety
    (enriched details : List (String × Option String)) (k : String) :
    (∀ v, dictGet enriched k = some (some v) →
      dictGet (mergeDetails enriched details) k = some (some v)) ∧
    (dictGet (mergeDetails enriched details) k ≠ dictGet enriched k →
      (dictGet enriched k = none ∨ dictGet enriched k = some none) ∧
        ∃ v, dictGet (mergeDetails enriched details) k = some (some v)) := by
  constructor
  · intro v hv
    exact mergeDetails_preserves_populated details enriched k v hv
  · intro hch
    exact mergeDetails_change_characterized details enriched k hch

/-- C8 witness: the merge safety theorem applied at a concrete record and
detail map: the populated key `name` survives, the null key `phone` is
filled in. -/
theorem enrichment_merge_safety_witness :
    dictGet [("name", some "A"), ("phone", none)] "name" = some (some "A") ∧
    dictGet (mergeDetails [("name", some "A"), ("phone", none)]
      [("name", some "B"), ("phone", some "123")]) "name" = some (some "A") := by
  constructor
  · decide
  · exact (enrichment_merge_safety [("name", some "A"), ("phone", none)]
      [("name", some "B"), ("phone", some "123")] "name").1 "A" (by decide)

/-! ## C1 -/

/-- Mapping strings into JSON and reading them back is the identity
(stated on the accumulator loop of `List.mapM`). -/
theorem mapM_asStr_loop (l acc : List String) :
    List.mapM.loop JVal.asStr (l.map JVal.str) acc = some (acc.reverse ++ l) := by
  induction l generalizing acc with
  | nil => simp [List.mapM.loop]
  | cons a rest ih => simp [List.mapM.loop, JVal.asStr, ih]

/-- Mapping strings into JSON and reading them back is the identity. -/
theorem mapM_asStr_map_str (l : List String) :
    (l.map JVal.str).mapM JVal.asStr = some l := by
  have h := mapM_asStr_loop l []
  simpa [List.mapM] using h

/-- Serializing a string list and reading it back is the identity. -/
theorem asStrList_map_str (l : List String) :
    JVal.asStrList (JVal.arr (l.map JVal.str)) = some l :=
  mapM_asStr_map_str l

/-- Loading the document written by `save` recovers the state: the
list-valued cell fields come back exactly, the set-valued fields are
rebuilt from their serialized enumerations, and `last_checkpoint` is the
load-time default. -/
theorem load_save (st : CollectionState) (now now2 : String)
    (pl hl el : List String) :
    CollectionState.load (some (some ((st.save now pl hl el).2))) now2 =
      some { area_name := st.area_name, category := st.category,
             buffer_km := st.buffer_km, use_subdivision := st.use_subdivision,
             completed_cells := st.completed_cells,
             failed_cells := st.failed_cells,
             businesses_count := st.businesses_count,
             collected_place_ids := pl.toFinset,
             collected_hex_ids := hl.toFinset,
             enriched_place_ids := el.toFinset,
             started_at := st.started_at, last_checkpoint := now2 } := by
  simp [CollectionState.save, CollectionState.load, JVal.jget, List.find?,
    asStrList_map_str]

/-- C1: Checkpoint round-trip.  For every collection state and every
order in which its sets are serialized to lists, loading the saved
checkpoint yields a state whose completed cells, failed cells, collected
primary identifiers, collected secondary identifiers and enriched
identifiers are set-equal to those of the original state. -/
theorem checkpoint_roundtrip (st : CollectionState) (now now2 : String)
    (pl hl el : List String)
    (hpl : pl.toFinset = st.collected_place_ids)
    (hhl : hl.toFinset = st.collected_hex_ids)
    (hel : el.toFinset = st.enriched_place_ids) :
    ∃ st2,
      CollectionState.load (some (some ((st.save now pl hl el).2))) now2 = some st2 ∧
      st2.completed_cells.toFinset = st.completed_cells.toFinset ∧
      st2.failed_cells.toFinset = st.failed_cells.toFinset ∧
      st2.collected_place_ids = st.collected_place_ids ∧
      st2.collected_hex_ids = st.collected_hex_ids ∧
      st2.enriched_place_ids = st.enriched_place_ids :=
  ⟨_, load_save st now now2 pl hl el, rfl, rfl, hpl, hhl, hel⟩

/-- C1 witness: the round-trip theorem at a concrete state whose primary
identifier set is serialized in reversed order. -/
theorem checkpoint_roundtrip_witness :
    ((["p2", "p1"] : List String).toFinset = sampleState.collected_place_ids) ∧
    ∃ st2,
      CollectionState.load
        (some (some ((sampleState.save "t1" ["p2", "p1"] [] []).2))) "t2" = some st2 ∧
      st2.completed_cells.toFinset = sampleState.completed_cells.toFinset ∧
      st2.failed_cells.toFinset = sampleState.failed_cells.toFinset ∧
      st2.collected_place_ids = sampleState.collected_place_ids ∧
      st2.collected_hex_ids = sampleState.collected_hex_ids ∧
      st2.enriched_place_ids = sampleState.enriched_place_ids :=
  ⟨by decide,
    checkpoint_roundtrip sampleState "t1" "t2" ["p2", "p1"] [] []
      (by decide) (by decide) (by decide)⟩

/-! ## Step lemmas for the parallel pass's per-record processing -/

/-- The parallel pass's boundary-filter test is false for a record that
passes the filter (no coordinates, or coordinates inside the boundary). -/
theorem main_filter_false (B : AreaBoundary) (biz : Business)
    (hf : (match biz.latitude, biz.longitude with
           | some lat, some lng => is_in_boundary lat lng B
           | _, _ => true) = true) :
    (match biz.latitude, biz.longitude with
     | some lat, some lng => !is_in_boundary lat lng B
     | _, _ => false) = false := by
  cases hlat : biz.latitude with
  | none => rfl
  | some lat =>
    cases hlng : biz.longitude with
    | none => rfl
    | some lng =>
      rw [hlat, hlng] at hf
      simp only at hf
      simp [hf]

/-- A record that is dropped by the boundary filter only increments the
filtered counter. -/
theorem processBusinessMain_filtered (B : AreaBoundary) (w : Bool)
    (rs : RunState) (biz : Business)
    (hfo : (match biz.latitude, biz.longitude with
            | some lat, some lng => !is_in_boundary lat lng B
            | _, _ => false) = true) :
    processBusinessMain B w rs biz =
      { rs with total_filtered := rs.total_filtered + 1 } := by
  simp only [processBusinessMain, hfo, if_true]

/-- A record whose truthy primary identifier is already collected is
counted as a duplicate and nothing else changes. -/
theorem processBusinessMain_dup_place (B : AreaBoundary) (w : Bool)
    (rs : RunState) (biz : Business)
    (hf : (match biz.latitude, biz.longitude with
           | some lat, some lng => is_in_boundary lat lng B
           | _, _ => true) = true)
    (hp : strTruthy biz.place_id = true)
    (hm : biz.place_id.getD "" ∈ rs.state.collected_place_ids) :
    processBusinessMain B w rs biz =
      { rs with total_duplicates := rs.total_duplicates + 1 } := by
  have hfo := main_filter_false B biz hf
  simp only [processBusinessMain, hfo, Bool.false_eq_true, if_false]
  rw [if_pos ⟨hp, hm⟩]

/-- A record that passes the filter and whose truthy identifiers are both
unseen is accepted: identifiers inserted, record appended to the
in-memory list, the JSONL stream and (when enabled) the CSV sink, and the
new-record counter incremented. -/
theorem processBusinessMain_accept (B : AreaBoundary) (w : Bool)
    (rs : RunState) (biz : Business)
    (hf : (match biz.latitude, biz.longitude with
           | some lat, some lng => is_in_boundary lat lng B
           | _, _ => true) = true)
    (hpu : strTruthy biz.place_id = true →
      biz.place_id.getD "" ∉ rs.state.collected_place_ids)
    (hhu : strTruthy biz.hex_id = true →
      biz.hex_id.getD "" ∉ rs.state.collected_hex_ids) :
    processBusinessMain B w rs biz =
      { rs with
        state := { rs.state with
          collected_place_ids :=
            if strTruthy biz.place_id then
              insert (biz.place_id.getD "") rs.state.collected_place_ids
            else rs.state.collected_place_ids
          collected_hex_ids :=
            if strTruthy biz.hex_id then
              insert (biz.hex_id.getD "") rs.state.collected_hex_ids
            else rs.state.collected_hex_ids }
        all_businesses := rs.all_businesses ++ [biz]
        total_new := rs.total_new + 1
        jsonl := rs.jsonl ++ [biz]
        csv_rows := if w then rs.csv_rows ++ [biz] else rs.csv_rows } := by
  have hfo := main_filter_false B biz hf
  simp only [processBusinessMain, hfo, Bool.false_eq_true, if_false]
  rw [if_neg (fun hc => hpu hc.1 hc.2), if_neg (fun hc => hhu hc.1 hc.2)]
  by_cases hp : strTruthy biz.place_id = true <;>
    by_cases hh : strTruthy biz.hex_id = true <;>
      simp [hp, hh]

/-! ## C2 -/

/-- C2 counterexample: the claim promises one accepted occurrence and one
duplicate for any record with an unseen primary identifier submitted
twice.  For the record `dupHexBiz` (unseen primary identifier `P`, seen
secondary identifier `H`) submitted twice to `dupHexState`, both
submissions are counted duplicates: zero accepted, two duplicates, and
the primary identifier is never collected. -/
theorem dedup_idempotence_counterexample :
    (dupHexBiz.place_id.getD "" ∉ dupHexState.state.collected_place_ids) ∧
    (processBusinessMain sampleBoundary true
        (processBusinessMain sampleBoundary true dupHexState dupHexBiz)
        dupHexBiz).total_new = 0 ∧
    (processBusinessMain sampleBoundary true
        (processBusinessMain sampleBoundary true dupHexState dupHexBiz)
        dupHexBiz).total_duplicates = 2 ∧
    ¬ ((processBusinessMain sampleBoundary true
        (processBusinessMain sampleBoundary true dupHexState dupHexBiz)
        dupHexBiz).total_new = 1 ∧
      (processBusinessMain sampleBoundary true
        (processBusinessMain sampleBoundary true dupHexState dupHexBiz)
        dupHexBiz).total_duplicates = 1) := by
  decide

/-- C2 amended: for every record with a truthy primary identifier that
passes the boundary filter, starting from any state in which the primary
identifier is unseen and the record's secondary identifier (if truthy) is
also unseen, submitting the record twice yields exactly one accepted
occurrence and exactly one duplicate count; the first submission wins,
the duplicate is not stored, and the identifier sets gain the primary
identifier exactly once. -/
theorem dedup_idempotence_amended (B : AreaBoundary) (w : Bool)
    (rs : RunState) (biz : Business)
    (hp : strTruthy biz.place_id = true)
    (hpu : biz.place_id.getD "" ∉ rs.state.collected_place_ids)
    (hhu : strTruthy biz.hex_id = true →
      biz.hex_id.getD "" ∉ rs.state.collected_hex_ids)
    (hf : (match biz.latitude, biz.longitude with
           | some lat, some lng => is_in_boundary lat lng B
           | _, _ => true) = true) :
    (processBusinessMain B w (processBusinessMain B w rs biz) biz).total_new
        = rs.total_new + 1 ∧
    (processBusinessMain B w (processBusinessMain B w rs biz) biz).total_duplicates
        = rs.total_duplicates + 1 ∧
    (processBusinessMain B w (processBusinessMain B w rs biz) biz).all_businesses
        = rs.all_businesses ++ [biz] ∧
    (processBusinessMain B w (processBusinessMain B w rs biz) biz).state.collected_place_ids
        = insert (biz.place_id.getD "") rs.state.collected_place_ids ∧
    (processBusinessMain B w rs biz).state.collected_place_ids
        = insert (biz.place_id.getD "") rs.state.collected_place_ids ∧
    (processBusinessMain B w (processBusinessMain B w rs biz) biz).state.collected_hex_ids
        = (processBusinessMain B w rs biz).state.collected_hex_ids := by
  have h1 := processBusinessMain_accept B w rs biz hf (fun _ => hpu) hhu
  have h2 := processBusinessMain_dup_place B w
    (processBusinessMain B w rs biz) biz hf hp
    (by
      rw [h1]
      simp only [hp, if_true]
      exact Finset.mem_insert_self _ _)
  rw [h2, h1]
  simp [hp]

/-- C2 amended witness: the amended theorem at the record `dupHexBiz`
submitted twice to the fresh-identifier run `sampleRun`. -/
theorem dedup_idempotence_amended_witness :
    (strTruthy dupHexBiz.place_id = true ∧
      dupHexBiz.place_id.getD "" ∉ sampleRun.state.collected_place_ids) ∧
    (processBusinessMain sampleBoundary true
        (processBusinessMain sampleBoundary true sampleRun dupHexBiz)
        dupHexBiz).total_new = sampleRun.total_new + 1 ∧
    (processBusinessMain sampleBoundary true
        (processBusinessMain sampleBoundary true sampleRun dupHexBiz)
        dupHexBiz).total_duplicates = sampleRun.total_duplicates + 1 :=
  ⟨⟨by decide, by decide⟩,
    (dedup_idempotence_amended sampleBoundary true sampleRun dupHexBiz
      (by decide) (by decide) (fun _ => by decide) (by decide)).1,
    (dedup_idempotence_amended sampleBoundary true sampleRun dupHexBiz
      (by decide) (by decide) (fun _ => by decide) (by decide)).2.1⟩

/-! ## C10 -/

/-- C10 counterexample: the claim promises two accepted occurrences for
any identifier-less record submitted twice.  The identifier-less record
`noIdBiz` has coordinates outside the filter boundary, so both
submissions are dropped by the boundary filter: zero accepted (not two),
although indeed zero duplicates. -/
theorem no_id_two_accepts_counterexample :
    noIdBiz.place_id = none ∧ noIdBiz.hex_id = none ∧
    ¬ ((processBusinessMain sampleBoundary true
        (processBusinessMain sampleBoundary true sampleRun noIdBiz)
        noIdBiz).total_new = sampleRun.total_new + 2) ∧
    (processBusinessMain sampleBoundary true
        (processBusinessMain sampleBoundary true sampleRun noIdBiz)
        noIdBiz).total_filtered = 2 ∧
    (processBusinessMain sampleBoundary true
        (processBusinessMain sampleBoundary true sampleRun noIdBiz)
        noIdBiz).total_duplicates = 0 := by
  decide

/-- C10 amended: a record carrying neither a truthy primary nor a truthy
secondary identifier is never treated as a duplicate — submitting it
twice never increments the duplicate counter and leaves both identifier
sets unchanged — and, provided it passes the boundary filter (it lacks
coordinates or its coordinates lie inside the filter boundary), it is
accepted both times. -/
theorem no_id_never_duplicate_amended (B : AreaBoundary) (w : Bool)
    (rs : RunState) (biz : Business)
    (hp : strTruthy biz.place_id = false)
    (hh : strTruthy biz.hex_id = false) :
    ((processBusinessMain B w (processBusinessMain B w rs biz) biz).total_duplicates
        = rs.total_duplicates ∧
      (processBusinessMain B w (processBusinessMain B w rs biz) biz).state.collected_place_ids
        = rs.state.collected_place_ids ∧
      (processBusinessMain B w (processBusinessMain B w rs biz) biz).state.collected_hex_ids
        = rs.state.collected_hex_ids) ∧
    ((match biz.latitude, biz.longitude with
      | some lat, some lng => is_in_boundary lat lng B
      | _, _ => true) = true →
      (processBusinessMain B w (processBusinessMain B w rs biz) biz).total_new
        = rs.total_new + 2 ∧
      (processBusinessMain B w (processBusinessMain B w rs biz) biz).all_businesses
        = rs.all_businesses ++ [biz, biz]) := by
  have hpu : ∀ rs2 : RunState, strTruthy biz.place_id = true →
      biz.place_id.getD "" ∉ rs2.state.collected_place_ids :=
    fun _ hc => absurd (hp.symm.trans hc) Bool.false_ne_true
  have hhu : ∀ rs2 : RunState, strTruthy biz.hex_id = true →
      biz.hex_id.getD "" ∉ rs2.state.collected_hex_ids :=
    fun _ hc => absurd (hh.symm.trans hc) Bool.false_ne_true
  by_cases hfc : (match biz.latitude, biz.longitude with
      | some lat, some lng => is_in_boundary lat lng B
      | _, _ => true) = true
  · have h1 := processBusinessMain_accept B w rs biz hfc (hpu rs) (hhu rs)
    have h2 := processBusinessMain_accept B w (processBusinessMain B w rs biz)
      biz hfc (hpu _) (hhu _)
    rw [h2, h1]
    simp [hp, hh, List.append_assoc]
  · have hfo : (match biz.latitude, biz.longitude with
        | some lat, some lng => !is_in_boundary lat lng B
        | _, _ => false) = true := by
      cases hlat : biz.latitude with
      | none => rw [hlat] at hfc; simp at hfc
      | some lat =>
        cases hlng : biz.longitude with
        | none => rw [hlat, hlng] at hfc; simp at hfc
        | some lng =>
          rw [hlat, hlng] at hfc
          simp only at hfc ⊢
          simp [Bool.eq_false_iff.mpr hfc]
    have h1 := processBusinessMain_filtered B w rs biz hfo
    have h2 := processBusinessMain_filtered B w
      (processBusinessMain B w rs biz) biz hfo
    rw [h2, h1]
    exact ⟨⟨rfl, rfl, rfl⟩, fun hc => absurd hc hfc⟩

/-- C10 amended witness: the amended theorem at a record with all fields
absent (no identifiers, no coordinates) submitted twice to `sampleRun`. -/
theorem no_id_never_duplicate_amended_witness :
    (strTruthy (Business.mk none none none none none "").place_id = false ∧
      strTruthy (Business.mk none none none none none "").hex_id = false) ∧
    (processBusinessMain sampleBoundary true
      (processBusinessMain sampleBoundary true sampleRun
        (Business.mk none none none none none ""))
      (Business.mk none none none none none "")).total_new
        = sampleRun.total_new + 2 :=
  ⟨⟨by decide, by decide⟩,
    ((no_id_never_duplicate_amended sampleBoundary true sampleRun
      (Business.mk none none none none none "") (by decide) (by decide)).2
      (by decide)).1⟩

/-! ## C4 -/

/-- Unfolds `fullPage` into the attempt outcome it summarizes. -/
theorem fullPage_spec (pp mr : Nat) (page : PageAttempts) :
    fullPage pp mr page = true ↔
      ∃ recs, firstSuccess mr page = some recs ∧
        recs.length ≠ 0 ∧ ¬ recs.length < pp := by
  cases h : firstSuccess mr page with
  | none => simp [fullPage, h]
  | some recs => simp [fullPage, h]

/-- Evaluation of the pagination loop on the empty page list. -/
theorem queryCellGo_nil (cell : TaggedCell) (pp mr : Nat) (acc : List Business) :
    queryCellGo cell pp mr [] acc = ⟨cell.cell_id, acc, true⟩ := rfl

/-- Evaluation of the pagination loop on a page all of whose attempts
within the retry ceiling fail. -/
theorem queryCellGo_cons_fail (cell : TaggedCell) (pp mr : Nat)
    (p : PageAttempts) (rest : List PageAttempts) (acc : List Business)
    (h : firstSuccess mr p = none) :
    queryCellGo cell pp mr (p :: rest) acc = ⟨cell.cell_id, acc, false⟩ := by
  unfold queryCellGo
  rw [h]

/-- Evaluation of the pagination loop on an empty result page. -/
theorem queryCellGo_cons_empty (cell : TaggedCell) (pp mr : Nat)
    (p : PageAttempts) (rest : List PageAttempts) (acc : List Business)
    (recs : List Business) (h : firstSuccess mr p = some recs)
    (h0 : recs.length = 0) :
    queryCellGo cell pp mr (p :: rest) acc = ⟨cell.cell_id, acc, true⟩ := by
  conv_lhs => unfold queryCellGo
  rw [h]
  simp [h0]

/-- Evaluation of the pagination loop on a short (end-of-results) page. -/
theorem queryCellGo_cons_short (cell : TaggedCell) (pp mr : Nat)
    (p : PageAttempts) (rest : List PageAttempts) (acc : List Business)
    (recs : List Business) (h : firstSuccess mr p = some recs)
    (h0 : ¬ recs.length = 0) (hlt : recs.length < pp) :
    queryCellGo cell pp mr (p :: rest) acc =
      ⟨cell.cell_id, acc ++ recs.map (tagBusiness cell), true⟩ := by
  conv_lhs => unfold queryCellGo
  rw [h]
  simp [h0, hlt]

/-- Evaluation of the pagination loop on a consumed full page. -/
theorem queryCellGo_cons_full (cell : TaggedCell) (pp mr : Nat)
    (p : PageAttempts) (rest : List PageAttempts) (acc : List Business)
    (recs : List Business) (h : firstSuccess mr p = some recs)
    (h0 : ¬ recs.length = 0) (hge : ¬ recs.length < pp) :
    queryCellGo cell pp mr (p :: rest) acc =
      queryCellGo cell pp mr rest (acc ++ recs.map (tagBusiness cell)) := by
  conv_lhs => unfold queryCellGo
  rw [h]
  simp [h0, hge]

/-- A decomposition into consumed-full pages followed by a failing page
cannot start at a page whose attempts succeeded with a terminating
(empty or short) result. -/
theorem no_fail_decomp_terminating (pp mr : Nat) (p : PageAttempts)
    (rest : List PageAttempts) (recs : List Business)
    (hfs : firstSuccess mr p = some recs)
    (hterm : recs.length = 0 ∨ recs.length < pp)
    (pre : List PageAttempts) (page : PageAttempts) (post : List PageAttempts)
    (hdec : p :: rest = pre ++ page :: post)
    (hpre : ∀ q ∈ pre, fullPage pp mr q = true)
    (hfp : firstSuccess mr page = none) : False := by
  cases pre with
  | nil =>
    rw [List.nil_append] at hdec
    injection hdec with h1 h2
    rw [← h1, hfs] at hfp
    cases hfp
  | cons q pre2 =>
    rw [List.cons_append] at hdec
    injection hdec with h1 h2
    obtain ⟨recs2, hfs2, hne2, hge2⟩ :=
      (fullPage_spec pp mr q).mp (hpre q (List.mem_cons_self q pre2))
    rw [← h1, hfs] at hfs2
    injection hfs2 with h3
    rw [← h3] at hne2 hge2
    rcases hterm with hterm | hterm
    · exact hne2 hterm
    · exact hge2 hterm

/-- The pagination loop reports failure exactly when, after some run of
consumed full pages, it meets a page on which every attempt within the
retry ceiling failed. -/
theorem queryCellGo_failure_iff (cell : TaggedCell) (pp mr : Nat)
    (pages : List PageAttempts) :
    ∀ acc, ((queryCellGo cell pp mr pages acc).success = false ↔
      ∃ pre page post, pages = pre ++ page :: post ∧
        (∀ q ∈ pre, fullPage pp mr q = true) ∧
        firstSuccess mr page = none) := by
  induction pages with
  | nil =>
    intro acc
    rw [queryCellGo_nil]
    constructor
    · intro h
      cases h
    · rintro ⟨pre, page, post, hdec, -, -⟩
      exact absurd hdec.symm (by simp)
  | cons p rest ih =>
    intro acc
    cases hfs : firstSuccess mr p with
    | none =>
      rw [queryCellGo_cons_fail cell pp mr p rest acc hfs]
      exact ⟨fun _ => ⟨[], p, rest, rfl, by simp, hfs⟩, fun _ => rfl⟩
    | some recs =>
      by_cases h0 : recs.length = 0
      · rw [queryCellGo_cons_empty cell pp mr p rest acc recs hfs h0]
        constructor
        · intro h
          cases h
        · rintro ⟨pre, page, post, hdec, hpre, hfp⟩
          exact absurd (no_fail_decomp_terminating pp mr p rest recs hfs
            (Or.inl h0) pre page post hdec hpre hfp) not_false
      · by_cases hlt : recs.length < pp
        · rw [queryCellGo_cons_short cell pp mr p rest acc recs hfs h0 hlt]
          constructor
          · intro h
            cases h
          · rintro ⟨pre, page, post, hdec, hpre, hfp⟩
            exact absurd (no_fail_decomp_terminating pp mr p rest recs hfs
              (Or.inr hlt) pre page post hdec hpre hfp) not_false
        · rw [queryCellGo_cons_full cell pp mr p rest acc recs hfs h0 hlt]
          rw [ih]
          constructor
          · rintro ⟨pre, page, post, hdec, hpre, hfp⟩
            refine ⟨p :: pre, page, post, by rw [hdec, List.cons_append], ?_, hfp⟩
            intro q hq
            rcases List.mem_cons.mp hq with hq | hq
            · rw [hq]
              exact (fullPage_spec pp mr p).mpr ⟨recs, hfs, h0, hlt⟩
            · exact hpre q hq
          · rintro ⟨pre, page, post, hdec, hpre, hfp⟩
            cases pre with
            | nil =>
              rw [List.nil_append] at hdec
              injection hdec with h1 h2
              rw [← h1, hfs] at hfp
              cases hfp
            | cons q pre2 =>
              rw [List.cons_append] at hdec
              injection hdec with h1 h2
              exact ⟨pre2, page, post, h2,
                fun r hr => hpre r (List.mem_cons_of_mem q hr), hfp⟩

/-- On failure at a page, the pagination loop returns exactly the records
of the full pages consumed before the failing page, appended to the
accumulator. -/
theorem queryCellGo_partial (cell : TaggedCell) (pp mr : Nat)
    (page : PageAttempts) (post : List PageAttempts)
    (hfail : firstSuccess mr page = none) :
    ∀ (pre : List PageAttempts) (acc : List Business),
      (∀ q ∈ pre, fullPage pp mr q = true) →
      queryCellGo cell pp mr (pre ++ page :: post) acc =
        ⟨cell.cell_id, acc ++ (pre.map (pageRecords cell mr)).flatten, false⟩ := by
  intro pre
  induction pre with
  | nil =>
    intro acc _
    rw [List.nil_append, queryCellGo_cons_fail cell pp mr page post acc hfail]
    simp
  | cons q pre2 ih =>
    intro acc hpre
    obtain ⟨recs, hfs, hne, hge⟩ :=
      (fullPage_spec pp mr q).mp (hpre q (List.mem_cons_self q pre2))
    rw [List.cons_append]
    rw [queryCellGo_cons_full cell pp mr q (pre2 ++ page :: post) acc recs hfs hne hge]
    rw [ih _ (fun r hr => hpre r (List.mem_cons_of_mem q hr))]
    simp [pageRecords, hfs, List.append_assoc]

/-- Replacing the cell-tracking lists commutes with the per-record
processing step: accepting, deduplicating and filtering a record reads
and writes only the identifier sets, the counters and the sinks. -/
theorem processBusinessMain_withCells (B : AreaBoundary) (w : Bool)
    (rs : RunState) (cc fc : List String) (biz : Business) :
    processBusinessMain B w (withCells rs cc fc) biz =
      withCells (processBusinessMain B w rs biz) cc fc := by
  obtain ⟨⟨an, cat, bk, sub, comp, fl, cnt, pids, hids, eids, sa, lc⟩,
    ab, js, cv, tn, td, tf⟩ := rs
  simp only [processBusinessMain, withCells]
  split_ifs <;> simp_all

/-- Replacing the cell-tracking lists commutes with processing a whole
record list. -/
theorem foldl_processBusinessMain_withCells (B : AreaBoundary) (w : Bool)
    (bs : List Business) :
    ∀ (rs : RunState) (cc fc : List String),
      bs.foldl (processBusinessMain B w) (withCells rs cc fc) =
        withCells (bs.foldl (processBusinessMain B w) rs) cc fc := by
  induction bs with
  | nil => intro rs cc fc; rfl
  | cons b rest ih =>
    intro rs cc fc
    simp only [List.foldl_cons, processBusinessMain_withCells, ih]

/-- C4: Partial results are never discarded.  `query_cell_with_retry`
reports failure exactly when some page never succeeds within the retry
ceiling after a run of consumed full pages; in that case the returned
record list is precisely the (tagged) records of all pages that did
succeed before the failure; and a failed cell's identifier goes to the
failed set, not the completed set, while its partial records are merged
through exactly the same filter/dedup/output fold as a successful cell's
records. -/
theorem partial_results_never_discarded (cell : TaggedCell) (pp mr : Nat)
    (pages : List PageAttempts) (B : AreaBoundary) (w : Bool) (rs : RunState)
    (pre post : List PageAttempts) (page : PageAttempts)
    (hpre : ∀ q ∈ pre, fullPage pp mr q = true)
    (hfail : firstSuccess mr page = none) :
    ((query_cell_with_retry cell pp mr pages).success = false ↔
      ∃ pre2 page2 post2, pages = pre2 ++ page2 :: post2 ∧
        (∀ q ∈ pre2, fullPage pp mr q = true) ∧
        firstSuccess mr page2 = none) ∧
    query_cell_with_retry cell pp mr (pre ++ page :: post) =
      ⟨cell.cell_id, (pre.map (pageRecords cell mr)).flatten, false⟩ ∧
    (∀ res : QueryResult, res.success = false →
      (processCellMain B w rs res).state.failed_cells
          = rs.state.failed_cells ++ [res.cell_id] ∧
      (processCellMain B w rs res).state.completed_cells
          = rs.state.completed_cells ∧
      (processCellMain B w rs res).all_businesses
          = (res.businesses.foldl (processBusinessMain B w) rs).all_businesses ∧
      (processCellMain B w rs res).jsonl
          = (res.businesses.foldl (processBusinessMain B w) rs).jsonl ∧
      (processCellMain B w rs res).state.collected_place_ids
          = (res.businesses.foldl (processBusinessMain B w) rs).state.collected_place_ids ∧
      (processCellMain B w rs res).state.collected_hex_ids
          = (res.businesses.foldl (processBusinessMain B w) rs).state.collected_hex_ids) := by
  refine ⟨queryCellGo_failure_iff cell pp mr pages [], ?_, ?_⟩
  · have h := queryCellGo_partial cell pp mr page post hfail pre [] hpre
    simpa [query_cell_with_retry] using h
  · intro res hf
    have hwc : ({ rs with state :=
        { rs.state with failed_cells := rs.state.failed_cells ++ [res.cell_id] } } : RunState)
        = withCells rs rs.state.completed_cells
            (rs.state.failed_cells ++ [res.cell_id]) := rfl
    simp only [processCellMain, hf, Bool.false_eq_true, if_false, hwc,
      foldl_processBusinessMain_withCells]
    simp [withCells]

/-- C4 witness: a cell whose first page is consumed full (two records at
page size two) and whose second page fails all three attempts: the query
reports failure but returns the first page's records, and the scheduler
records the cell as failed while still merging the records. -/
theorem partial_results_never_discarded_witness :
    (∀ q ∈ [[some [dupHexBiz, noIdBiz]]], fullPage 2 3 q = true) ∧
    query_cell_with_retry ⟨"c0", 1, 1, "src"⟩ 2 3
        ([[some [dupHexBiz, noIdBiz]]] ++ [none, none, none] :: []) =
      ⟨"c0", (([[some [dupHexBiz, noIdBiz]]] : List PageAttempts).map
        (pageRecords ⟨"c0", 1, 1, "src"⟩ 3)).flatten, false⟩ ∧
    (processCellMain sampleBoundary true sampleRun
        ⟨"c0", [dupHexBiz], false⟩).state.failed_cells
      = sampleRun.state.failed_cells ++ ["c0"] :=
  ⟨by decide,
    (partial_results_never_discarded ⟨"c0", 1, 1, "src"⟩ 2 3 []
      sampleBoundary true sampleRun [[some [dupHexBiz, noIdBiz]]] []
      [none, none, none] (by decide) (by decide)).2.1,
    ((partial_results_never_discarded ⟨"c0", 1, 1, "src"⟩ 2 3 []
      sampleBoundary true sampleRun [[some [dupHexBiz, noIdBiz]]] []
      [none, none, none] (by decide) (by decide)).2.2
      ⟨"c0", [dupHexBiz], false⟩ rfl).1⟩

/-! ## C6 -/

/-- Every cell of a generated grid has as center latitude the rounded
value of one of the row latitudes the outer loop walked. -/
theorem generate_grid_center_lat (g : ℚ → ℚ) (B : AreaBoundary) (cs : Nat)
    (c : GridCell) (hc : c ∈ generate_grid g B cs) :
    ∃ lat ∈ gridRowLats B.north (meters_to_lat_degrees cs)
        (B.south + meters_to_lat_degrees cs / 2)
        (loopFuel (B.south + meters_to_lat_degrees cs / 2) B.north
          (meters_to_lat_degrees cs)),
      c.center_lat = roundTo6 lat := by
  simp only [generate_grid] at hc
  obtain ⟨pr, hpr, hceq⟩ := List.mem_map.mp hc
  have hmem := List.get?_mem (List.mem_enum_iff_get?.mp hpr)
  obtain ⟨row, hrow, hprrow⟩ := List.mem_flatten.mp hmem
  obtain ⟨lat, hlat, hroweq⟩ := List.mem_map.mp hrow
  rw [← hroweq] at hprrow
  obtain ⟨lngv, hlngv, hpre⟩ := List.mem_map.mp hprrow
  refine ⟨lat, hlat, ?_⟩
  rw [← hceq]
  show pr.2.1 = roundTo6 lat
  rw [← hpre]

/-- The outer loop of the grid over the unit boundary with an 83490 m
cell (latitude step exactly 0.75 degrees) walks a single row, centered at
latitude 0.375. -/
theorem unitGridRowLats :
    gridRowLats unitBoundary.north (meters_to_lat_degrees ((83490 : Nat) : ℚ))
      (unitBoundary.south + meters_to_lat_degrees ((83490 : Nat) : ℚ) / 2)
      (loopFuel (unitBoundary.south + meters_to_lat_degrees ((83490 : Nat) : ℚ) / 2)
        unitBoundary.north (meters_to_lat_degrees ((83490 : Nat) : ℚ))) = [3/8] := by
  norm_num [gridRowLats, loopFuel, Rat.ceil, unitBoundary,
    meters_to_lat_degrees, METERS_PER_LAT_DEGREE]

/-- Rounding 0.375 to six decimals is the identity. -/
theorem roundTo6_three_eighths : roundTo6 (3/8 : ℚ) = 3/8 := by
  unfold roundTo6
  rw [round_eq]
  rw [show (3/8 : ℚ) * 1000000 + 1/2 = 750001/2 by norm_num]
  rw [show ⌊(750001/2 : ℚ)⌋ = 375000 by rw [Int.floor_eq_iff]; norm_num]
  norm_num

/-- Rounding 0.5 to six decimals is the identity. -/
theorem roundTo6_half : roundTo6 (1/2 : ℚ) = 1/2 := by
  unfold roundTo6
  rw [round_eq]
  rw [show (1/2 : ℚ) * 1000000 + 1/2 = 1000001/2 by norm_num]
  rw [show ⌊(1000001/2 : ℚ)⌋ = 500000 by rw [Int.floor_eq_iff]; norm_num]
  norm_num

/-- Under the constant longitude step of one degree, the grid of the
unit boundary with an 83490 m cell is the single cell centered at
(0.375, 0.5). -/
theorem unitGrid_const_lngStep :
    generate_grid (fun _ => 1) unitBoundary 83490 =
      [⟨0, 3/8, 1/2, 41745⟩] := by
  simp only [generate_grid]
  rw [unitGridRowLats]
  have hlngs : gridRowLngs unitBoundary.east 1 (unitBoundary.west + 1 / 2)
      (loopFuel (unitBoundary.west + 1 / 2) unitBoundary.east 1) = [1/2] := by
    norm_num [gridRowLngs, loopFuel, Rat.ceil, unitBoundary]
  simp only [List.map_cons, List.map_nil]
  rw [hlngs]
  simp [roundTo6_three_eighths, roundTo6_half, List.enum]
  rw [show (2⁻¹ : ℚ) = 1/2 by norm_num]
  exact roundTo6_half

/-- C6: the grid coverage property fails on the code.  With an 83490 m
cell (latitude step exactly 0.75 degrees) the generated grid of the
0.3-degree-tall boundary `smallBoundary` is empty although the interior
point (0.15, 0.5) lies in it; and on the unit boundary the single row of
cell centers sits at latitude 0.375, so no cell footprint reaches the
interior point (0.9, 0.5) — both regardless of the per-row longitude
step function. -/
theorem grid_coverage_gap (lngStepAt : ℚ → ℚ) :
    (generate_grid lngStepAt smallBoundary 83490 = [] ∧
      is_in_boundary (3/20) (1/2) smallBoundary = true) ∧
    (is_in_boundary (9/10) (1/2) unitBoundary = true ∧
      ∀ c ∈ generate_grid lngStepAt unitBoundary 83490,
        ¬ inFootprint lngStepAt 83490 c (9/10) (1/2)) := by
  refine ⟨⟨?_, ?_⟩, ?_, ?_⟩
  · have hlats0 : gridRowLats smallBoundary.north (meters_to_lat_degrees ((83490 : Nat) : ℚ))
        (smallBoundary.south + meters_to_lat_degrees ((83490 : Nat) : ℚ) / 2)
        (loopFuel (smallBoundary.south + meters_to_lat_degrees ((83490 : Nat) : ℚ) / 2)
          smallBoundary.north (meters_to_lat_degrees ((83490 : Nat) : ℚ))) = [] := by
      norm_num [gridRowLats, loopFuel, Rat.ceil, smallBoundary,
        meters_to_lat_degrees, METERS_PER_LAT_DEGREE]
    simp only [generate_grid]
    rw [hlats0]
    simp
  · norm_num [is_in_boundary, smallBoundary]
  · norm_num [is_in_boundary, unitBoundary]
  · intro c hc
    obtain ⟨lat, hlat, hclat⟩ :=
      generate_grid_center_lat lngStepAt unitBoundary 83490 c hc
    rw [unitGridRowLats] at hlat
    have hl8 : lat = 3/8 := by simpa using hlat
    rw [hl8, roundTo6_three_eighths] at hclat
    rintro ⟨h1, -⟩
    rw [hclat] at h1
    rw [show |(9:ℚ)/10 - 3/8| = 21/40 by rw [abs_of_pos] <;> norm_num] at h1
    norm_num [meters_to_lat_degrees, METERS_PER_LAT_DEGREE] at h1

/-- C6 witness: the coverage-gap theorem instantiated with the constant
longitude-step function, under which the unit boundary's grid is the
single cell centered at (0.375, 0.5), whose footprint does not reach the
interior point (0.9, 0.5). -/
theorem grid_coverage_gap_witness :
    (⟨0, 3/8, 1/2, 41745⟩ : GridCell) ∈
        generate_grid (fun _ => 1) unitBoundary 83490 ∧
    ¬ inFootprint (fun _ => 1) 83490 ⟨0, 3/8, 1/2, 41745⟩ (9/10) (1/2) :=
  ⟨by rw [unitGrid_const_lngStep]; exact List.mem_singleton.mpr rfl,
    (grid_coverage_gap (fun _ => 1)).2.2 ⟨0, 3/8, 1/2, 41745⟩
      (by rw [unitGrid_const_lngStep]; exact List.mem_singleton.mpr rfl)⟩

/-! ## C3 -/

/-- The retry path's per-record step never touches the cell-tracking
lists (over a whole record list). -/
theorem foldl_processBusinessRetry_cells (B : AreaBoundary) (bs : List Business) :
    ∀ rs : RunState,
      (bs.foldl (processBusinessRetry B) rs).state.completed_cells
          = rs.state.completed_cells ∧
      (bs.foldl (processBusinessRetry B) rs).state.failed_cells
          = rs.state.failed_cells := by
  induction bs with
  | nil => intro rs; exact ⟨rfl, rfl⟩
  | cons b rest ih =>
    intro rs
    rw [List.foldl_cons]
    have hstep : (processBusinessRetry B rs b).state.completed_cells
          = rs.state.completed_cells ∧
        (processBusinessRetry B rs b).state.failed_cells
          = rs.state.failed_cells := by
      unfold processBusinessRetry
      split_ifs <;> simp
    exact ⟨(ih _).1.trans hstep.1, (ih _).2.trans hstep.2⟩

/-- C3 counterexample: the retry pass's record path is not identical to
the parallel pass's.  The record `zeroLatBiz` (latitude `0.0`, longitude
outside the boundary) is filtered and counted by the parallel pass but
accepted and streamed by the retry pass; the duplicate `dupHexBiz` is
counted by the parallel pass but not by the retry pass; and an accepted
record is written to the CSV sink by the parallel pass but never by the
retry pass. -/
theorem retry_path_not_identical_counterexample :
    ((processBusinessMain sampleBoundary true sampleRun zeroLatBiz).total_filtered = 1 ∧
      (processBusinessMain sampleBoundary true sampleRun zeroLatBiz).all_businesses = [] ∧
      (processBusinessRetry sampleBoundary sampleRun zeroLatBiz).all_businesses
        = [zeroLatBiz] ∧
      (processBusinessRetry sampleBoundary sampleRun zeroLatBiz).jsonl = [zeroLatBiz]) ∧
    ((processBusinessMain sampleBoundary true dupHexState dupHexBiz).total_duplicates = 1 ∧
      (processBusinessRetry sampleBoundary dupHexState dupHexBiz).total_duplicates = 0) ∧
    ((processBusinessMain sampleBoundary true sampleRun dupHexBiz).csv_rows = [dupHexBiz] ∧
      (processBusinessRetry sampleBoundary sampleRun dupHexBiz).csv_rows = []) := by
  decide

/-- C3 amended: after the parallel pass drains, the failed cells are
retried sequentially (a fold over the failed-cell list, not a pool) with
retry ceiling 5, higher than the first pass's default of 3; every cell
whose retried query succeeds is moved from the failed list to the
completed list, and its records are deduplicated against the same
cumulative identifier sets and appended to the same in-memory collection
and JSONL stream — agreeing with the parallel pass's filter/dedup path on
every record with no coordinate equal to zero — but the retry path
treats zero coordinates as absent in the boundary filter, does not count
duplicates or filtered records, and does not write CSV rows. -/
theorem retry_pass_amended (B : AreaBoundary) :
    (firstPassMaxRetries = 3 ∧ retryPassMaxRetries = 5 ∧
      firstPassMaxRetries < retryPassMaxRetries) ∧
    (∀ (backend : TaggedCell → List PageAttempts) (pp : Nat) (rs : RunState)
        (cell : TaggedCell),
      (query_cell_with_retry cell pp retryPassMaxRetries (backend cell)).success = true →
      (retryPass B backend pp rs [cell]).state.completed_cells
          = rs.state.completed_cells ++ [cell.cell_id] ∧
      (retryPass B backend pp rs [cell]).state.failed_cells
          = rs.state.failed_cells.erase cell.cell_id) ∧
    (∀ (rs : RunState) (biz : Business),
      biz.latitude ≠ some 0 → biz.longitude ≠ some 0 →
      (processBusinessRetry B rs biz).all_businesses
          = (processBusinessMain B false rs biz).all_businesses ∧
      (processBusinessRetry B rs biz).jsonl
          = (processBusinessMain B false rs biz).jsonl ∧
      (processBusinessRetry B rs biz).state.collected_place_ids
          = (processBusinessMain B false rs biz).state.collected_place_ids ∧
      (processBusinessRetry B rs biz).state.collected_hex_ids
          = (processBusinessMain B false rs biz).state.collected_hex_ids) := by
  refine ⟨⟨rfl, rfl, by decide⟩, ?_, ?_⟩
  · intro backend pp rs cell hsucc
    simp only [retryPass, List.foldl_cons, List.foldl_nil, hsucc, if_true]
    constructor
    · rw [(foldl_processBusinessRetry_cells B _ _).1]
    · rw [(foldl_processBusinessRetry_cells B _ _).2]
  · intro rs biz hlat hlng
    have hcond : ((qTruthy biz.latitude ∧ qTruthy biz.longitude ∧
        !is_in_boundary (biz.latitude.getD 0) (biz.longitude.getD 0) B) : Prop) ↔
        ((match biz.latitude, biz.longitude with
          | some lat, some lng => !is_in_boundary lat lng B
          | _, _ => false) = true) := by
      cases hl : biz.latitude with
      | none => simp [qTruthy]
      | some q =>
        cases hg : biz.longitude with
        | none => simp [qTruthy]
        | some r =>
          have hq : q ≠ 0 := by
            rintro rfl
            exact hlat hl
          have hr : r ≠ 0 := by
            rintro rfl
            exact hlng hg
          simp [qTruthy, hq, hr]
    by_cases hfc : (match biz.latitude, biz.longitude with
        | some lat, some lng => !is_in_boundary lat lng B
        | _, _ => false) = true
    · rw [processBusinessMain_filtered B false rs biz hfc]
      have hret : processBusinessRetry B rs biz = rs := by
        unfold processBusinessRetry
        rw [if_pos (hcond.mpr hfc)]
      rw [hret]
      exact ⟨rfl, rfl, rfl, rfl⟩
    · have hmain_nf : (match biz.latitude, biz.longitude with
          | some lat, some lng => !is_in_boundary lat lng B
          | _, _ => false) = false := Bool.eq_false_iff.mpr hfc
      have hret_nf : ¬ (qTruthy biz.latitude ∧ qTruthy biz.longitude ∧
          !is_in_boundary (biz.latitude.getD 0) (biz.longitude.getD 0) B) :=
        fun hc => hfc (hcond.mp hc)
      unfold processBusinessRetry processBusinessMain
      rw [if_neg hret_nf, hmain_nf]
      simp only [Bool.false_eq_true, if_false]
      by_cases hdp : (strTruthy biz.place_id ∧
          biz.place_id.getD "" ∈ rs.state.collected_place_ids)
      · rw [if_pos hdp, if_pos hdp]
        exact ⟨rfl, rfl, rfl, rfl⟩
      · rw [if_neg hdp, if_neg hdp]
        by_cases hdh : (strTruthy biz.hex_id ∧
            biz.hex_id.getD "" ∈ rs.state.collected_hex_ids)
        · rw [if_pos hdh, if_pos hdh]
          exact ⟨rfl, rfl, rfl, rfl⟩
        · rw [if_neg hdh, if_neg hdh]
          exact ⟨rfl, rfl, rfl, rfl⟩

/-- C3 amended witness: a failed cell `c0` whose retried query succeeds
with a short page is moved from the failed list to the completed list. -/
theorem retry_pass_amended_witness :
    (query_cell_with_retry ⟨"c0", 1, 1, "src"⟩ 2 retryPassMaxRetries
        ((fun _ : TaggedCell => [[some [dupHexBiz]]]) ⟨"c0", 1, 1, "src"⟩)).success = true ∧
    (retryPass sampleBoundary (fun _ => [[some [dupHexBiz]]]) 2 failedRun
        [⟨"c0", 1, 1, "src"⟩]).state.completed_cells
      = failedRun.state.completed_cells ++ ["c0"] ∧
    (retryPass sampleBoundary (fun _ => [[some [dupHexBiz]]]) 2 failedRun
        [⟨"c0", 1, 1, "src"⟩]).state.failed_cells
      = failedRun.state.failed_cells.erase "c0" :=
  ⟨by decide,
    ((retry_pass_amended sampleBoundary).2.1 (fun _ => [[some [dupHexBiz]]]) 2
      failedRun ⟨"c0", 1, 1, "src"⟩ (by decide)).1,
    ((retry_pass_amended sampleBoundary).2.1 (fun _ => [[some [dupHexBiz]]]) 2
      failedRun ⟨"c0", 1, 1, "src"⟩ (by decide)).2⟩

/-! ## C5 -/

/-- C5 counterexample: the claim says five consecutive `record_success`
calls from any state with a zero success streak strictly decrease the
current delay.  From the default limiter state (zero streak, current
delay already equal to the base delay `0.1`) the five calls leave the
delay unchanged at `0.1`, so the decrease is not strict. -/
theorem rate_limiter_no_strict_decrease_at_base :
    ({} : RateLimiter).consecutive_successes = 0 ∧
    ¬ ((({} : RateLimiter).record_success.record_success.record_success.record_success.record_success).current_delay
        < ({} : RateLimiter).current_delay) := by
  constructor
  · rfl
  · norm_num [RateLimiter.record_success, max_def]

/-- Five `record_success` calls from a zero success streak perform four
streak increments and one delay update. -/
theorem record_success_five (rl : RateLimiter)
    (h : rl.consecutive_successes = 0) :
    rl.record_success.record_success.record_success.record_success.record_success =
      { rl with current_delay := max rl.base_delay (rl.current_delay * (9/10)),
                consecutive_successes := 0, consecutive_errors := 0 } := by
  obtain ⟨bd, md, bf, jit, cd, ce, cs⟩ := rl
  simp only at h
  subst h
  simp [RateLimiter.record_success]

/-- C5 amended: from any limiter state with a zero success streak and a
nonnegative base delay, five consecutive `record_success` calls with no
interleaved error set the current delay to `max base_delay (0.9 * delay)`
and reset both streaks — a strict decrease when the delay was above the
base delay, unchanged when it equals the base delay, and a raise to the
base delay when it was below it (a reachable state: `current_delay`
defaults to `0.1` independently of `base_delay`, so the enrichment
limiter built with `base_delay = 0.3` starts below its base); one
`record_error` with the throttle signal set multiplies the current delay
by `2 * backoff_factor` (double the non-throttle multiplier), capped at
`max_delay`, and resets the success streak. -/
theorem rate_limiter_convergence_amended (rl : RateLimiter)
    (h : rl.consecutive_successes = 0) :
    ((rl.record_success.record_success.record_success.record_success.record_success).current_delay
        = max rl.base_delay (rl.current_delay * (9/10)) ∧
      (rl.record_success.record_success.record_success.record_success.record_success).consecutive_successes = 0 ∧
      (rl.record_success.record_success.record_success.record_success.record_success).consecutive_errors = 0) ∧
    ((0 ≤ rl.base_delay → rl.base_delay < rl.current_delay →
      (rl.record_success.record_success.record_success.record_success.record_success).current_delay
        < rl.current_delay) ∧
     (0 ≤ rl.base_delay → rl.current_delay = rl.base_delay →
      (rl.record_success.record_success.record_success.record_success.record_success).current_delay
        = rl.current_delay) ∧
     (0 ≤ rl.base_delay → rl.current_delay < rl.base_delay →
      (rl.record_success.record_success.record_success.record_success.record_success).current_delay
        = rl.base_delay)) ∧
    ((rl.record_error true).current_delay
        = min rl.max_delay (rl.current_delay * (rl.backoff_factor * 2)) ∧
      (rl.record_error false).current_delay
        = min rl.max_delay (rl.current_delay * rl.backoff_factor) ∧
      (rl.record_error true).current_delay ≤ rl.max_delay ∧
      (rl.record_error true).consecutive_successes = 0) := by
  have h5 := record_success_five rl h
  refine ⟨?_, ⟨?_, ?_, ?_⟩, ?_⟩
  · rw [h5]
    exact ⟨rfl, rfl, rfl⟩
  · intro hbd hlt
    rw [h5]
    simp only
    have hcd : 0 < rl.current_delay := lt_of_le_of_lt hbd hlt
    have h9 : rl.current_delay * (9/10) < rl.current_delay := by nlinarith
    exact max_lt hlt h9
  · intro hbd heq
    rw [h5]
    simp only
    rw [heq]
    have h9 : rl.base_delay * (9/10) ≤ rl.base_delay := by nlinarith
    exact max_eq_left h9
  · intro hbd hlt
    rw [h5]
    simp only
    have h9 : rl.current_delay * (9/10) ≤ rl.base_delay := by nlinarith
    exact max_eq_left h9
  · refine ⟨rfl, rfl, ?_, rfl⟩
    simp only [RateLimiter.record_error]
    exact min_le_left _ _

/-- C5 amended witness: the amended theorem applied to a limiter with
base delay 1 and current delay 2 (the delay update formula), and to a
limiter with base delay 0.3 and the default current delay 0.1 — the
enrichment limiter's starting state — where the five successes raise the
delay to the base. -/
theorem rate_limiter_convergence_amended_witness :
    (({ base_delay := 1, current_delay := 2 } : RateLimiter).consecutive_successes = 0 ∧
      (({ base_delay := 1, current_delay := 2 } : RateLimiter).record_success.record_success.record_success.record_success.record_success).current_delay
        = max (1 : ℚ) ((2 : ℚ) * (9/10))) ∧
    ((0 ≤ ({ base_delay := 3/10 } : RateLimiter).base_delay ∧
        ({ base_delay := 3/10 } : RateLimiter).current_delay
          < ({ base_delay := 3/10 } : RateLimiter).base_delay) ∧
      (({ base_delay := 3/10 } : RateLimiter).record_success.record_success.record_success.record_success.record_success).current_delay
        = ({ base_delay := 3/10 } : RateLimiter).base_delay) :=
  ⟨⟨rfl, ((rate_limiter_convergence_amended
      { base_delay := 1, current_delay := 2 } rfl).1).1⟩,
   ⟨⟨by norm_num, by norm_num⟩,
    (rate_limiter_convergence_amended { base_delay := 3/10 } rfl).2.1.2.2
      (by norm_num) (by norm_num)⟩⟩

/-! ## C7 -/

/-- C7 counterexample: the claim says the cell scheduler's worker count is
`min(configured parallelism, MAX_PARALLEL_WORKERS, pending count)`.  In
`collect_businesses_v2` (line 580) the hard ceiling is not applied: with
60 configured workers and 70 pending cells the pool gets 60 workers,
exceeding the ceiling of 50. -/
theorem worker_count_v2_exceeds_ceiling :
    workersV2 60 70 = 60 ∧
    min 60 (min MAX_PARALLEL_WORKERS 70) = 50 ∧
    ¬ workersV2 60 70 = min 60 (min MAX_PARALLEL_WORKERS 70) := by
  decide

/-- C7 amended: in `collect_businesses` (collector.py) the worker count is
`max(1, min(configured parallelism, MAX_PARALLEL_WORKERS, cell count))`,
hence at least 1, at most the hard ceiling, and equal to the claimed
minimum whenever parallelism and cell count are positive; the v2 scheduler
(`collect_businesses_v2`) instead uses `min(configured parallelism,
pending count or 1)` with no hard ceiling, which equals
`min(parallelism, pending)` for a positive pending count and is at least 1
when the configured parallelism is. -/
theorem worker_count_amended (pw c : Nat) (hpw : 1 ≤ pw) (hc : 1 ≤ c) :
    workersV1 pw c = min pw (min MAX_PARALLEL_WORKERS c) ∧
    1 ≤ workersV1 pw c ∧
    workersV1 pw c ≤ MAX_PARALLEL_WORKERS ∧
    workersV2 pw c = min pw c ∧
    1 ≤ workersV2 pw c := by
  have hc0 : ¬ c = 0 := by omega
  unfold workersV1 workersV2 MAX_PARALLEL_WORKERS
  rw [if_neg hc0]
  omega

/-- C7 amended witness: the amended theorem at 20 configured workers and
5 pending cells. -/
theorem worker_count_amended_witness :
    (1 ≤ 20 ∧ 1 ≤ 5) ∧ workersV2 20 5 = min 20 5 :=
  ⟨⟨by decide, by decide⟩, (worker_count_amended 20 5 (by decide) (by decide)).2.2.2.1⟩

/-! ## C9 -/

/-- C9: Checkpoint load fault tolerance.  A missing checkpoint file, a
file whose contents fail to parse, a parsed document that is not a JSON
object, and an object missing the required `area_name` key all load as
`none` (the no-checkpoint result) instead of raising; conversely, a load
that does produce a state can only have come from a parsed JSON object.
`load` is a total function, so it never raises to its caller. -/
theorem checkpoint_load_fault_tolerant :
    CollectionState.load none "t" = none ∧
    CollectionState.load (some none) "t" = none ∧
    (∀ fields now, JVal.jget fields "area_name" = none →
      CollectionState.load (some (some (JVal.obj fields))) now = none) ∧
    (∀ j now, (∀ fields, j ≠ JVal.obj fields) →
      CollectionState.load (some (some j)) now = none) ∧
    (∀ file now st, CollectionState.load file now = some st →
      ∃ fields, file = some (some (JVal.obj fields))) := by
  refine ⟨rfl, rfl, ?_, ?_, ?_⟩
  · intro fields now h
    simp only [CollectionState.load, h]
  · intro j now h
    cases j with
    | null => rfl
    | bool b => rfl
    | num q => rfl
    | str s => rfl
    | arr xs => rfl
    | obj fields => exact absurd rfl (h fields)
  · intro file now st h
    match file with
    | none => exact absurd h (by simp [CollectionState.load])
    | some none => exact absurd h (by simp [CollectionState.load])
    | some (some (JVal.obj fields)) => exact ⟨fields, rfl⟩
    | some (some JVal.null) => exact absurd h (by simp [CollectionState.load])
    | some (some (JVal.bool b)) => exact absurd h (by simp [CollectionState.load])
    | some (some (JVal.num q)) => exact absurd h (by simp [CollectionState.load])
    | some (some (JVal.str s)) => exact absurd h (by simp [CollectionState.load])
    | some (some (JVal.arr xs)) => exact absurd h (by simp [CollectionState.load])

/-- C9 witness: the fault-tolerance theorem applied to the empty JSON
object (a checkpoint with an invalid schema: no `area_name` key). -/
theorem checkpoint_load_fault_tolerant_witness :
    JVal.jget [] "area_name" = none ∧
    CollectionState.load (some (some (JVal.obj []))) "t" = none :=
  ⟨rfl, checkpoint_load_fault_tolerant.2.2.1 [] "t" rfl⟩

end GMaps
